import Mathlib

/-!
Verification development for the power-plant state detection repository.

This file gives a shallow embedding of the streaming dataset / data-module
pipeline of `src/coal_emissions_monitoring/dataset.py`:

* `CoalEmissionsDataset` with its construction-time column validation
  (`CoalEmissionsDataset.init`, mirroring the `assert` in `__init__`),
  its length (`CoalEmissionsDataset.len`, mirroring `__len__`) and its
  iteration (`workerIndices`, `processRow`, `runRows`, `runWorker`,
  mirroring `__iter__`).
* `CoalEmissionsDataModule.setup` with its row-level split labelling.

External collaborators that the dataset code only calls through a narrow
interface (`get_image_from_cog`, `is_image_too_dark`, the transforms, the
joined table produced by `get_final_dataset` and the facility mapper) are
taken as parameters of the embedded functions, exactly as the source treats
them as opaque calls.
-/

/-- A field value held in one cell of a row of the GeoDataFrame.  Numbers
(floats/ints) are modelled as rationals, timestamps carry their canonical
string form, and geometries are abstract tokens. -/
inductive Value where
  | vNum (q : Rat)
  | vStr (s : String)
  | vTs (t : String)
  | vGeom (g : Nat)
  deriving DecidableEq

/-- Python `str(...)` applied to a cell value, as used on the timestamp in
`metadata["ts"] = str(metadata["ts"])`. -/
def Value.serialize : Value → String
  | vNum q => toString q.num ++ "/" ++ toString q.den
  | vStr s => s
  | vTs t => t
  | vGeom g => toString g

/-- `torch.tensor(x).float()` on a cell value: succeeds exactly on numeric
cells, producing the scalar. -/
def Value.toFloat? : Value → Option Rat
  | vNum q => some q
  | _ => none

/-- One row of the table: an ordered association list of column name to
cell value (a pandas Series). -/
abbrev Row := List (String × Value)

/-- `row[k]` / `row.k`: the first cell under column name `k`, if any
(pandas raises `KeyError` when the label is absent, modelled as `none`). -/
def lookupRow (row : Row) (k : String) : Option Value :=
  (row.find? (fun kv => kv.1 == k)).map Prod.snd

/-- `row[k] = v`: replace the (first) cell under `k`, or append a new cell
when the label is absent. -/
def setVal (row : Row) (k : String) (v : Value) : Row :=
  match row with
  | [] => [(k, v)]
  | kv :: rest => if kv.1 = k then (k, v) :: rest else kv :: setVal rest k v

/-- `row.drop(labels)`: remove the listed labels; pandas raises `KeyError`
when any label is not present in the row, modelled as `none`. -/
def dropKeys (row : Row) (labels : List String) : Option Row :=
  if labels.all (fun l => row.any (fun kv => kv.1 == l)) then
    some (row.filter (fun kv => !(labels.contains kv.1)))
  else none

/-- A GeoDataFrame: a declared column set and a list of rows. -/
structure GeoDataFrame where
  columns : List String
  rows : List Row
  deriving DecidableEq

/-- The raw pixel array returned by `get_image_from_cog` (a numpy integer
array: a shape and flat integer data). -/
structure RawImage where
  shape : List Nat
  data : List Int
  deriving DecidableEq

/-- A float tensor: a shape and flat rational data. -/
structure Image where
  shape : List Nat
  data : List Rat
  deriving DecidableEq

/-- `torch.from_numpy(image).float()`. -/
def toFloatTensor (r : RawImage) : Image :=
  ⟨r.shape, r.data.map (fun n => (n : Rat))⟩

/-- `tensor.squeeze(0)`: drop the leading dimension exactly when it has
size 1, otherwise leave the tensor unchanged. -/
def Image.squeeze0 (img : Image) : Image :=
  match img.shape with
  | 1 :: rest => ⟨rest, img.data⟩
  | _ => img

/-- The unit yielded by `CoalEmissionsDataset.__iter__`: the dict
with keys "image", "target" and "metadata". -/
structure Sample where
  image : Image
  target : Rat
  metadata : Row
  deriving DecidableEq

/-- The ways one loop body of `__iter__` can raise: a fetch failure from
`get_image_from_cog`, a pandas `KeyError` on a missing label, a failed
tensor cast of the target cell, or a `KeyError` from `row.drop`. -/
inductive IterError where
  | fetchError
  | keyError (k : String)
  | castError
  | dropError
  deriving DecidableEq

/-- `FINAL_COLUMNS` from `coal_emissions_monitoring.constants`.
Modelled from the spec: `constants.py` is not among the sources; the spec
(section 3, Row) and the docstring of `CoalEmissionsDataset.__init__` list
the required columns. -/
def FINAL_COLUMNS : List String :=
  ["facility_id", "facility_name", "latitude", "longitude", "ts",
   "co2_mass_short_tons", "cloud_cover", "cog_url", "geometry"]

/-- The `CoalEmissionsDataset` object after a successful `__init__`. -/
structure CoalEmissionsDataset where
  gdf : GeoDataFrame
  target : String
  image_size : Nat
  max_dark_frac : Rat
  transforms : Option (Image → Image)

/-- `CoalEmissionsDataset.__init__`: asserts
`len(set(FINAL_COLUMNS) - set(gdf.columns)) == 0` and then stores its
arguments; returns `none` when the assertion fails. -/
def CoalEmissionsDataset.init (gdf : GeoDataFrame) (target : String)
    (image_size : Nat) (max_dark_frac : Rat)
    (transforms : Option (Image → Image)) : Option CoalEmissionsDataset :=
  if FINAL_COLUMNS.all (fun c => gdf.columns.contains c) then
    some ⟨gdf, target, image_size, max_dark_frac, transforms⟩
  else none

/-- `CoalEmissionsDataset.__len__`: `len(self.gdf)`, the row count. -/
def CoalEmissionsDataset.len (ds : CoalEmissionsDataset) : Nat :=
  ds.gdf.rows.length

/-- Python `range(start, stop, step)` (positive step), with fuel for
structural recursion; `rangeStep` supplies adequate fuel. -/
def rangeStepAux (stop step : Nat) : Nat → Nat → List Nat
  | 0, _ => []
  | fuel + 1, start =>
    if start < stop ∧ 0 < step then
      start :: rangeStepAux stop step fuel (start + step)
    else []

/-- Python `range(start, stop, step)` for a positive step. -/
def rangeStep (start stop step : Nat) : List Nat :=
  rangeStepAux stop step (stop - start) start

/-- The indices iterated by one worker in `__iter__`:
`range(worker_id, len(self), worker_total_num)`. -/
def workerIndices (worker_id worker_total_num n : Nat) : List Nat :=
  rangeStep worker_id n worker_total_num

theorem rangeStepAux_sound {stop step : Nat} (hs : 0 < step) :
    ∀ fuel start x, stop - start ≤ fuel →
      (x ∈ rangeStepAux stop step fuel start ↔
        x < stop ∧ ∃ k, x = start + step * k) := by
  intro fuel
  induction fuel with
  | zero =>
    intro start x hle
    simp only [rangeStepAux, List.not_mem_nil, false_iff]
    rintro ⟨hx, k, rfl⟩
    omega
  | succ fuel ih =>
    intro start x hle
    by_cases hlt : start < stop
    · rw [rangeStepAux, if_pos ⟨hlt, hs⟩]
      have hrec := ih (start + step) x (by omega)
      simp only [List.mem_cons, hrec]
      constructor
      · rintro (rfl | ⟨hx, k, rfl⟩)
        · exact ⟨hlt, 0, by omega⟩
        · refine ⟨hx, k + 1, ?_⟩
          rw [Nat.mul_succ]
          omega
      · rintro ⟨hx, k, rfl⟩
        cases k with
        | zero => left; omega
        | succ k =>
          right
          refine ⟨hx, k, ?_⟩
          rw [Nat.mul_succ] at *
          omega
    · rw [rangeStepAux, if_neg (by omega)]
      simp only [List.not_mem_nil, false_iff]
      rintro ⟨hx, k, rfl⟩
      omega

theorem mem_rangeStep {start stop step x : Nat} (hs : 0 < step) :
    x ∈ rangeStep start stop step ↔ x < stop ∧ ∃ k, x = start + step * k :=
  rangeStepAux_sound hs (stop - start) start x (Nat.le_refl _)

theorem rangeStepAux_lower {stop step : Nat} :
    ∀ fuel start x, x ∈ rangeStepAux stop step fuel start → start ≤ x := by
  intro fuel
  induction fuel with
  | zero => intro start x hx; simp [rangeStepAux] at hx
  | succ fuel ih =>
    intro start x hx
    rw [rangeStepAux] at hx
    split at hx
    · rcases List.mem_cons.1 hx with rfl | hx
      · exact Nat.le_refl _
      · have := ih (start + step) x hx
        omega
    · simp at hx

theorem sorted_rangeStepAux {stop step : Nat} :
    ∀ fuel start, List.Sorted (· < ·) (rangeStepAux stop step fuel start) := by
  intro fuel
  induction fuel with
  | zero => intro start; simp [rangeStepAux]
  | succ fuel ih =>
    intro start
    rw [rangeStepAux]
    split
    · rename_i h
      refine List.sorted_cons.2 ⟨?_, ih (start + step)⟩
      intro b hb
      have := rangeStepAux_lower fuel (start + step) b hb
      omega
    · simp

theorem sorted_workerIndices (i W n : Nat) :
    List.Sorted (· < ·) (workerIndices i W n) :=
  sorted_rangeStepAux (n - i) i

theorem mem_workerIndices {x i W n : Nat} (hW : 0 < W) (hi : i < W) :
    x ∈ workerIndices i W n ↔ x < n ∧ x % W = i := by
  rw [workerIndices, rangeStep]
  rw [rangeStepAux_sound hW (n - i) i x (Nat.le_refl _)]
  constructor
  · rintro ⟨hx, k, rfl⟩
    exact ⟨hx, by rw [Nat.add_mul_mod_self_left, Nat.mod_eq_of_lt hi]⟩
  · rintro ⟨hx, hmod⟩
    refine ⟨hx, x / W, ?_⟩
    conv_lhs => rw [← Nat.mod_add_div x W]
    rw [hmod]

/-- Claim C1: the index sets iterated by workers `0..W-1` in
`CoalEmissionsDataset.__iter__` (worker `i` visits `i, i+W, i+2W, ...`)
are pairwise disjoint, their union is exactly `{0..N-1}`, each worker's
shard is visited in ascending original-index order, and with a single
worker that worker visits every index. -/
theorem C1_worker_sharding (N W : Nat) (hW : 1 ≤ W) :
    (∀ i j, i < W → j < W → i ≠ j →
      ∀ x, x ∈ workerIndices i W N → x ∉ workerIndices j W N) ∧
    (∀ x, (∃ i, i < W ∧ x ∈ workerIndices i W N) ↔ x < N) ∧
    (∀ i, i < W → List.Sorted (· < ·) (workerIndices i W N)) ∧
    (∀ x, x ∈ workerIndices 0 1 N ↔ x < N) := by
  refine ⟨?_, ?_, ?_, ?_⟩
  · intro i j hi hj hij x hxi hxj
    have h1 := (mem_workerIndices hW hi).1 hxi
    have h2 := (mem_workerIndices hW hj).1 hxj
    exact hij (h1.2 ▸ h2.2 ▸ rfl)
  · intro x
    constructor
    · rintro ⟨i, hi, hx⟩
      exact ((mem_workerIndices hW hi).1 hx).1
    · intro hx
      exact ⟨x % W, Nat.mod_lt x hW,
        (mem_workerIndices hW (Nat.mod_lt x hW)).2 ⟨hx, rfl⟩⟩
  · intro i _
    exact sorted_rangeStepAux _ i
  · intro x
    rw [mem_workerIndices (by omega) (by omega)]
    omega

/-- Witness for C1 at `N = 5`, `W = 2`: index 3 belongs to worker 1's
shard and therefore not to worker 0's. -/
theorem C1_worker_sharding_witness : 3 ∉ workerIndices 0 2 5 :=
  (C1_worker_sharding 5 2 (by decide)).1 1 0 (by decide) (by decide)
    (by decide) 3 (by decide)

/-- Lines 90-94 of `__iter__`: read `row.cog_url` and `row.geometry`, call
the collaborator `get_image_from_cog(cog_url, geometry, size)` and convert
the result with `torch.from_numpy(image).float()`.  The collaborator is a
parameter; its failure becomes `IterError.fetchError`. -/
def fetchRowImage (get_image_from_cog : Value → Value → Nat → Except Unit RawImage)
    (ds : CoalEmissionsDataset) (row : Row) : Except IterError Image :=
  match lookupRow row "cog_url" with
  | none => .error (.keyError "cog_url")
  | some url =>
    match lookupRow row "geometry" with
    | none => .error (.keyError "geometry")
    | some geom =>
      match get_image_from_cog url geom ds.image_size with
      | .error _ => .error .fetchError
      | .ok raw => .ok (toFloatTensor raw)

/-- Lines 97-98 of `__iter__`: when a transform is configured the image
becomes `self.transforms(image).squeeze(0)`, otherwise it is left as is. -/
def applyTransforms (transforms : Option (Image → Image)) (image : Image) :
    Image :=
  match transforms with
  | some t => (t image).squeeze0
  | none => image

/-- One loop body of `__iter__` (lines 90-106) applied to one row:
fetch and convert the image, skip the row (`continue`, modelled as
`.ok none`) when `is_image_too_dark(image, max_dark_frac)` holds, apply the
optional transform followed by `.squeeze(0)`, cast the target cell, build
the metadata via `row.drop([target, "geometry", "data_set"]).to_dict()` and
serialize its timestamp, and yield the sample (`.ok (some s)`).  Any raised
exception is the corresponding `.error`. -/
def processRow (get_image_from_cog : Value → Value → Nat → Except Unit RawImage)
    (is_image_too_dark : Image → Rat → Bool)
    (ds : CoalEmissionsDataset) (row : Row) : Except IterError (Option Sample) :=
  match fetchRowImage get_image_from_cog ds row with
  | .error e => .error e
  | .ok image =>
    if is_image_too_dark image ds.max_dark_frac then .ok none
    else
      match lookupRow row ds.target with
      | none => .error (.keyError ds.target)
      | some tv =>
        match tv.toFloat? with
        | none => .error .castError
        | some tq =>
          match dropKeys row [ds.target, "geometry", "data_set"] with
          | none => .error .dropError
          | some md0 =>
            match lookupRow md0 "ts" with
            | none => .error (.keyError "ts")
            | some tsv =>
              .ok (some ⟨applyTransforms ds.transforms image, tq,
                setVal md0 "ts" (Value.vStr tsv.serialize)⟩)

/-- Run the `__iter__` loop over a list of rows, collecting the yielded
samples in order; the first raised exception ends the pass and is returned
alongside the samples yielded before it. -/
def runRows (get_image_from_cog : Value → Value → Nat → Except Unit RawImage)
    (is_image_too_dark : Image → Rat → Bool) (ds : CoalEmissionsDataset) :
    List Row → List Sample × Option IterError
  | [] => ([], none)
  | row :: rest =>
    match processRow get_image_from_cog is_image_too_dark ds row with
    | .error e => ([], some e)
    | .ok none => runRows get_image_from_cog is_image_too_dark ds rest
    | .ok (some s) =>
      let r := runRows get_image_from_cog is_image_too_dark ds rest
      (s :: r.1, r.2)

/-- The rows visited by one worker, in visit order:
`self.gdf.iloc[idx]` for `idx in range(worker_id, len(self), worker_total_num)`. -/
def shardRows (ds : CoalEmissionsDataset) (worker_id worker_total_num : Nat) :
    List Row :=
  (workerIndices worker_id worker_total_num ds.gdf.rows.length).map
    (fun i => ds.gdf.rows.getD i [])

/-- One worker's full pass of `__iter__`. -/
def runWorker (get_image_from_cog : Value → Value → Nat → Except Unit RawImage)
    (is_image_too_dark : Image → Rat → Bool) (ds : CoalEmissionsDataset)
    (worker_id worker_total_num : Nat) : List Sample × Option IterError :=
  runRows get_image_from_cog is_image_too_dark ds
    (shardRows ds worker_id worker_total_num)


theorem runRows_cons_error {gi : Value → Value → Nat → Except Unit RawImage}
    {da : Image → Rat → Bool} {ds : CoalEmissionsDataset} {row : Row}
    {rest : List Row} {e : IterError}
    (hp : processRow gi da ds row = .error e) :
    runRows gi da ds (row :: rest) = ([], some e) := by
  rw [runRows, hp]

theorem runRows_cons_skip {gi : Value → Value → Nat → Except Unit RawImage}
    {da : Image → Rat → Bool} {ds : CoalEmissionsDataset} {row : Row}
    {rest : List Row} (hp : processRow gi da ds row = .ok none) :
    runRows gi da ds (row :: rest) = runRows gi da ds rest := by
  rw [runRows, hp]

theorem runRows_cons_yield {gi : Value → Value → Nat → Except Unit RawImage}
    {da : Image → Rat → Bool} {ds : CoalEmissionsDataset} {row : Row}
    {rest : List Row} {s : Sample}
    (hp : processRow gi da ds row = .ok (some s)) :
    runRows gi da ds (row :: rest) =
      ((s :: (runRows gi da ds rest).1, (runRows gi da ds rest).2)) := by
  rw [runRows, hp]

theorem runRows_append (gi : Value → Value → Nat → Except Unit RawImage)
    (da : Image → Rat → Bool) (ds : CoalEmissionsDataset) (l1 l2 : List Row)
    (h : (runRows gi da ds l1).2 = none) :
    runRows gi da ds (l1 ++ l2) =
      ((runRows gi da ds l1).1 ++ (runRows gi da ds l2).1,
       (runRows gi da ds l2).2) := by
  induction l1 with
  | nil => simp [runRows]
  | cons row rest ih =>
    rw [List.cons_append]
    cases hp : processRow gi da ds row with
    | error e =>
      rw [runRows_cons_error hp] at h
      simp at h
    | ok o =>
      cases o with
      | none =>
        rw [runRows_cons_skip hp] at h ⊢
        rw [runRows_cons_skip hp]
        exact ih h
      | some s =>
        rw [runRows_cons_yield hp] at h ⊢
        rw [runRows_cons_yield hp]
        simp only at h
        rw [ih h]
        simp

theorem processRow_ok_none_iff (gi : Value → Value → Nat → Except Unit RawImage)
    (da : Image → Rat → Bool) (ds : CoalEmissionsDataset) (row : Row)
    (img : Image) (hfetch : fetchRowImage gi ds row = .ok img) :
    (processRow gi da ds row = .ok none ↔ da img ds.max_dark_frac = true) := by
  constructor
  · intro h
    by_contra hd
    rw [Bool.not_eq_true] at hd
    simp only [processRow, hfetch, hd, Bool.false_eq_true, if_false] at h
    split at h
    · exact Except.noConfusion h
    · split at h
      · exact Except.noConfusion h
      · split at h
        · exact Except.noConfusion h
        · split at h
          · exact Except.noConfusion h
          · simp at h
  · intro hd
    simp only [processRow, hfetch, hd, if_true]

theorem processRow_error_of_fetchError
    (gi : Value → Value → Nat → Except Unit RawImage)
    (da : Image → Rat → Bool) (ds : CoalEmissionsDataset) (row : Row)
    (e : IterError) (h : fetchRowImage gi ds row = .error e) :
    processRow gi da ds row = .error e := by
  rw [processRow, h]

theorem runRows_length_le (gi : Value → Value → Nat → Except Unit RawImage)
    (da : Image → Rat → Bool) (ds : CoalEmissionsDataset) (l : List Row)
    (h : (runRows gi da ds l).2 = none) :
    (runRows gi da ds l).1.length ≤ l.length ∧
    ((runRows gi da ds l).1.length = l.length ↔
      ∀ row ∈ l, processRow gi da ds row ≠ .ok none) := by
  induction l with
  | nil => simp [runRows]
  | cons row rest ih =>
    cases hp : processRow gi da ds row with
    | error e =>
      rw [runRows_cons_error hp] at h
      simp at h
    | ok o =>
      cases o with
      | none =>
        rw [runRows_cons_skip hp] at h ⊢
        obtain ⟨h1, _⟩ := ih h
        refine ⟨Nat.le_succ_of_le h1, ?_, ?_⟩
        · intro hlen
          simp only [List.length_cons] at hlen
          omega
        · intro hall
          exact absurd hp (hall row (List.mem_cons_self row rest))
      | some s =>
        rw [runRows_cons_yield hp] at h ⊢
        simp only at h
        simp only [List.length_cons]
        obtain ⟨h1, h2⟩ := ih h
        refine ⟨by omega, ?_, ?_⟩
        · intro hlen r hr
          rcases List.mem_cons.1 hr with rfl | hr
          · rw [hp]; simp
          · exact (h2.1 (by omega)) r hr
        · intro hall
          have := h2.2 (fun r hr => hall r (List.mem_cons_of_mem row hr))
          omega

theorem processRow_ok_some_inv {gi : Value → Value → Nat → Except Unit RawImage}
    {da : Image → Rat → Bool} {ds : CoalEmissionsDataset} {row : Row}
    {s : Sample} (h : processRow gi da ds row = .ok (some s)) :
    ∃ img tv tq md0 tsv,
      fetchRowImage gi ds row = .ok img ∧
      da img ds.max_dark_frac = false ∧
      lookupRow row ds.target = some tv ∧
      tv.toFloat? = some tq ∧
      dropKeys row [ds.target, "geometry", "data_set"] = some md0 ∧
      lookupRow md0 "ts" = some tsv ∧
      s = ⟨applyTransforms ds.transforms img, tq,
           setVal md0 "ts" (Value.vStr tsv.serialize)⟩ := by
  rw [processRow] at h
  split at h
  · exact Except.noConfusion h
  · rename_i img hfetch
    split at h
    · exact Option.noConfusion (Except.ok.inj h)
    · rename_i hdark
      rw [Bool.not_eq_true] at hdark
      split at h
      · exact Except.noConfusion h
      · rename_i tv htv
        split at h
        · exact Except.noConfusion h
        · rename_i tq htq
          split at h
          · exact Except.noConfusion h
          · rename_i md0 hmd0
            split at h
            · exact Except.noConfusion h
            · rename_i tsv htsv
              have hs := Option.some.inj (Except.ok.inj h)
              exact ⟨img, tv, tq, md0, tsv, hfetch, hdark, htv, htq, hmd0,
                htsv, hs.symm⟩

theorem lookupRow_cons_ne {kv : String × Value} {rest : Row} {k : String}
    (h : kv.1 ≠ k) : lookupRow (kv :: rest) k = lookupRow rest k := by
  rw [lookupRow, lookupRow, List.find?_cons_of_neg]
  simp [h]

theorem lookupRow_cons_eq {kv : String × Value} {rest : Row} {k : String}
    (h : kv.1 = k) : lookupRow (kv :: rest) k = some kv.2 := by
  rw [lookupRow, List.find?_cons_of_pos]
  · rfl
  · simp [h]

theorem lookupRow_setVal_self (row : Row) (k : String) (v : Value) :
    lookupRow (setVal row k v) k = some v := by
  induction row with
  | nil => simp [setVal, lookupRow]
  | cons kv rest ih =>
    rw [setVal]
    by_cases hk : kv.1 = k
    · rw [if_pos hk, lookupRow_cons_eq rfl]
    · rw [if_neg hk, lookupRow_cons_ne hk]
      exact ih

theorem keys_setVal_of_lookup (row : Row) (k : String) (v w : Value)
    (h : lookupRow row k = some w) :
    (setVal row k v).map Prod.fst = row.map Prod.fst := by
  induction row with
  | nil => simp [lookupRow] at h
  | cons kv rest ih =>
    rw [setVal]
    by_cases hk : kv.1 = k
    · rw [if_pos hk]
      simp [hk]
    · rw [if_neg hk]
      rw [lookupRow_cons_ne hk] at h
      rw [List.map_cons, List.map_cons, ih h]

theorem lookupRow_filter (row : Row) (k : String) (f : String × Value → Bool)
    (hf : ∀ v, f (k, v) = true) :
    lookupRow (row.filter f) k = lookupRow row k := by
  induction row with
  | nil => rfl
  | cons kv rest ih =>
    obtain ⟨k1, v1⟩ := kv
    by_cases hk : k1 = k
    · subst hk
      rw [List.filter_cons_of_pos (hf v1), lookupRow_cons_eq rfl,
        lookupRow_cons_eq rfl]
    · cases hfkv : f (k1, v1) with
      | true =>
        rw [List.filter_cons_of_pos hfkv, lookupRow_cons_ne hk,
          lookupRow_cons_ne hk]
        exact ih
      | false =>
        rw [List.filter_cons_of_neg (by simp [hfkv]), lookupRow_cons_ne hk]
        exact ih

theorem lookupRow_mem {row : Row} {k : String} {v : Value}
    (h : lookupRow row k = some v) : (k, v) ∈ row := by
  rw [lookupRow] at h
  obtain ⟨kv, hfind, hsnd⟩ := Option.map_eq_some'.1 h
  have hp := List.find?_some hfind
  have hm := List.mem_of_find?_eq_some hfind
  obtain ⟨k1, v1⟩ := kv
  simp only [beq_iff_eq] at hp
  subst hp
  cases hsnd
  exact hm

theorem rangeStepAux_one (n : Nat) :
    ∀ fuel s, n - s = fuel → rangeStepAux n 1 fuel s = List.range' s fuel := by
  intro fuel
  induction fuel with
  | zero => intro s _; rfl
  | succ fuel ih =>
    intro s h
    rw [rangeStepAux, if_pos ⟨by omega, by omega⟩, ih (s + 1) (by omega)]
    rfl

theorem map_getD_range {α : Type} (l : List α) (d : α) :
    (List.range l.length).map (fun i => l.getD i d) = l := by
  induction l with
  | nil => rfl
  | cons a rest ih =>
    rw [List.length_cons, List.range_succ_eq_map, List.map_cons, List.map_map]
    simp only [List.getD_cons_zero, Function.comp_def, List.getD_cons_succ]
    exact congrArg (a :: ·) ih

theorem shardRows_single (ds : CoalEmissionsDataset) :
    shardRows ds 0 1 = ds.gdf.rows := by
  rw [shardRows, workerIndices, rangeStep,
    rangeStepAux_one _ _ 0 (by omega), ← List.range_eq_range']
  exact map_getD_range ds.gdf.rows []

/-- `split_data_in_sets` from `coal_emissions_monitoring.ml_utils`.
Modelled from the spec: `ml_utils.py` is not among the sources.  Spec 4.1
says: for a row with year at or above the `test_year` cutoff the split is
"test" unconditionally, regardless of the facility mapping; otherwise the
split is the facility mapping's value.  The extraction of the row's year
from its timestamp and the facility-mapper lookup on the row's facility id
are abstracted as the parameters `yearOf` and `facLabel`. -/
def split_data_in_sets (yearOf : Row → Int) (facLabel : Row → String)
    (test_year : Int) (row : Row) : String :=
  if test_year ≤ yearOf row then "test" else facLabel row

/-- Lines 175-180 of `CoalEmissionsDataModule.setup` applied to one row:
store the row's resolved split in the "data_set" column. -/
def labelRow (yearOf : Row → Int) (facLabel : Row → String)
    (test_year : Int) (row : Row) : Row :=
  setVal row "data_set"
    (Value.vStr (split_data_in_sets yearOf facLabel test_year row))

/-- `gdf["data_set"] = gdf.apply(lambda row: split_data_in_sets(row, ...),
axis=1)`: label every row and record the new column. -/
def labelDataSet (yearOf : Row → Int) (facLabel : Row → String)
    (test_year : Int) (gdf : GeoDataFrame) : GeoDataFrame :=
  ⟨if gdf.columns.contains "data_set" then gdf.columns
    else gdf.columns ++ ["data_set"],
   gdf.rows.map (labelRow yearOf facLabel test_year)⟩

/-- `gdf[gdf.data_set == label].sample(frac=1)`: the rows of one split,
reshuffled once; the shuffle is a parameter. -/
def selectSet (gdf : GeoDataFrame) (label : String)
    (shuffle : List Row → List Row) : GeoDataFrame :=
  ⟨gdf.columns,
   shuffle (gdf.rows.filter
     (fun row => lookupRow row "data_set" == some (Value.vStr label)))⟩

/-- The `CoalEmissionsDataModule` configuration fields that `setup` reads.
The three source paths and the train/val split fraction are consumed only
by the external collaborators (`get_final_dataset`,
`get_facility_set_mapper`), which are parameters of
`CoalEmissionsDataModule.setup`. -/
structure CoalEmissionsDataModule where
  target : String
  image_size : Nat
  test_year : Int
  batch_size : Nat
  num_workers : Nat

/-- The dataset attributes that `setup` may set; `none` models an
attribute left unset. -/
structure ModuleState where
  train_dataset : Option CoalEmissionsDataset
  val_dataset : Option CoalEmissionsDataset
  test_dataset : Option CoalEmissionsDataset

/-- `CoalEmissionsDataModule.setup` (lines 158-200): take the joined table
(the collaborator result `get_final_dataset`), label every row with its
resolved split, and construct the per-split datasets when the stage is
"fit" or "test"; any other stage constructs nothing.  The overall `none`
models an exception escaping `setup` (a failed construction assert);
otherwise the result is the labelled table together with the dataset
attributes set by this stage. -/
def CoalEmissionsDataModule.setup (dm : CoalEmissionsDataModule)
    (get_final_dataset : GeoDataFrame)
    (yearOf : Row → Int) (facLabel : Row → String)
    (shuffle : List Row → List Row)
    (train_transforms val_transforms test_transforms : Image → Image)
    (stage : String) : Option (GeoDataFrame × ModuleState) :=
  let gdf := labelDataSet yearOf facLabel dm.test_year get_final_dataset
  if stage = "fit" then
    match CoalEmissionsDataset.init (selectSet gdf "train" shuffle) dm.target
        dm.image_size (1 / 2 : Rat) (some train_transforms),
      CoalEmissionsDataset.init (selectSet gdf "val" shuffle) dm.target
        dm.image_size (1 / 2 : Rat) (some val_transforms) with
    | some tr, some va => some (gdf, ⟨some tr, some va, none⟩)
    | _, _ => none
  else if stage = "test" then
    match CoalEmissionsDataset.init (selectSet gdf "test" shuffle) dm.target
        dm.image_size (1 / 2 : Rat) (some test_transforms) with
    | some te => some (gdf, ⟨none, none, some te⟩)
    | none => none
  else some (gdf, ⟨none, none, none⟩)

/-- Claim C2: for every row whose fetched image the darkness check reports
too dark (`is_image_too_dark(image, max_dark_frac)` true), `__iter__`
yields no sample for that row and continues to the next index: the loop
body yields nothing and raises nothing, prepending such a row to the
remaining rows leaves the output unchanged, and inserting it anywhere in a
pass leaves the output unchanged, so no dark-image row is ever present in
the stream's output. -/
theorem C2_dark_rows_skipped
    (gi : Value → Value → Nat → Except Unit RawImage)
    (da : Image → Rat → Bool) (ds : CoalEmissionsDataset) (row : Row)
    (img : Image) (hfetch : fetchRowImage gi ds row = .ok img)
    (hdark : da img ds.max_dark_frac = true) :
    processRow gi da ds row = .ok none ∧
    (∀ rest, runRows gi da ds (row :: rest) = runRows gi da ds rest) ∧
    (∀ pre rest, (runRows gi da ds pre).2 = none →
      runRows gi da ds (pre ++ row :: rest) =
        runRows gi da ds (pre ++ rest)) := by
  have h0 : processRow gi da ds row = .ok none :=
    (processRow_ok_none_iff gi da ds row img hfetch).2 hdark
  refine ⟨h0, fun rest => runRows_cons_skip h0, fun pre rest hpre => ?_⟩
  rw [runRows_append gi da ds pre (row :: rest) hpre,
    runRows_append gi da ds pre rest hpre, runRows_cons_skip h0]

/-- Claim C4: constructing a `CoalEmissionsDataset` from a table missing
any required column (for example "geometry") fails at construction time
(the embedded constructor returns `none`, so no dataset object exists to
iterate), and construction succeeds when the table contains every
required column. -/
theorem C4_construction_validation (gdf : GeoDataFrame) (target : String)
    (image_size : Nat) (max_dark_frac : Rat)
    (transforms : Option (Image → Image)) :
    "geometry" ∈ FINAL_COLUMNS ∧
    ((∃ c ∈ FINAL_COLUMNS, c ∉ gdf.columns) →
      CoalEmissionsDataset.init gdf target image_size max_dark_frac transforms
        = none) ∧
    ((∀ c ∈ FINAL_COLUMNS, c ∈ gdf.columns) →
      CoalEmissionsDataset.init gdf target image_size max_dark_frac transforms
        = some ⟨gdf, target, image_size, max_dark_frac, transforms⟩) := by
  refine ⟨by simp [FINAL_COLUMNS], ?_, ?_⟩
  · rintro ⟨c, hc, hnc⟩
    rw [CoalEmissionsDataset.init, if_neg]
    intro hall
    rw [List.all_eq_true] at hall
    have := hall c hc
    rw [List.contains, List.elem_iff] at this
    exact hnc this
  · intro hall
    rw [CoalEmissionsDataset.init, if_pos]
    rw [List.all_eq_true]
    intro c hc
    rw [List.contains, List.elem_iff]
    exact hall c hc

/-- Claim C5: `__len__` equals the row count of the underlying table; a
full (error-free) single-worker iteration yields at most that many
samples, with equality exactly when no row is skipped; and a row is
skipped (yields nothing without error) exactly when the darkness check
reports its fetched image too dark. -/
theorem C5_length_contract (gi : Value → Value → Nat → Except Unit RawImage)
    (da : Image → Rat → Bool) (ds : CoalEmissionsDataset)
    (h : (runWorker gi da ds 0 1).2 = none) :
    CoalEmissionsDataset.len ds = ds.gdf.rows.length ∧
    (runWorker gi da ds 0 1).1.length ≤ CoalEmissionsDataset.len ds ∧
    ((runWorker gi da ds 0 1).1.length = CoalEmissionsDataset.len ds ↔
      ∀ row ∈ ds.gdf.rows, processRow gi da ds row ≠ .ok none) ∧
    (∀ row img, fetchRowImage gi ds row = .ok img →
      (processRow gi da ds row = .ok none ↔
        da img ds.max_dark_frac = true)) := by
  have h' : (runRows gi da ds ds.gdf.rows).2 = none := by
    rw [runWorker, shardRows_single] at h
    exact h
  obtain ⟨h1, h2⟩ := runRows_length_le gi da ds ds.gdf.rows h'
  refine ⟨rfl, ?_, ?_, fun row img hf =>
    processRow_ok_none_iff gi da ds row img hf⟩
  · rw [runWorker, shardRows_single, CoalEmissionsDataset.len]
    exact h1
  · rw [runWorker, shardRows_single, CoalEmissionsDataset.len]
    exact h2

/-- Claim C8: when the image fetch raises while a worker processes one
index of its shard, the error propagates to the consumer and the worker's
pass ends there: the pass returns exactly the samples of the shard rows
before the failing one, together with the fetch error; nothing is yielded
for the failing index or for any later index of that worker's shard, and
there is no retry and no skipping of the failing row. -/
theorem C8_fetch_failure_aborts
    (gi : Value → Value → Nat → Except Unit RawImage)
    (da : Image → Rat → Bool) (ds : CoalEmissionsDataset)
    (worker_id worker_total_num : Nat) (pre : List Row) (row : Row)
    (rest : List Row)
    (hsplit : shardRows ds worker_id worker_total_num = pre ++ row :: rest)
    (hpre : (runRows gi da ds pre).2 = none)
    (herr : fetchRowImage gi ds row = .error .fetchError) :
    runWorker gi da ds worker_id worker_total_num =
      ((runRows gi da ds pre).1, some IterError.fetchError) := by
  rw [runWorker, hsplit, runRows_append gi da ds pre (row :: rest) hpre,
    runRows_cons_error (processRow_error_of_fetchError gi da ds row _ herr)]
  simp

theorem squeeze0_shape_singleton (img : Image) (sh : List Nat)
    (h : img.shape = 1 :: sh) : img.squeeze0.shape = sh := by
  rw [Image.squeeze0, h]

/-- Claim C6: every sample yielded by `__iter__` carries the target cell
cast to a float scalar, and a metadata mapping whose keys are exactly the
row's fields minus the target field, the geometry and the "data_set" split
label, with the timestamp field serialized to its string form. -/
theorem C6_sample_contents (gi : Value → Value → Nat → Except Unit RawImage)
    (da : Image → Rat → Bool) (ds : CoalEmissionsDataset) (row : Row)
    (s : Sample) (h : processRow gi da ds row = .ok (some s)) :
    (∃ tv tq, lookupRow row ds.target = some tv ∧ tv.toFloat? = some tq ∧
      s.target = tq) ∧
    s.metadata.map Prod.fst =
      (row.filter (fun kv =>
        !([ds.target, "geometry", "data_set"].contains kv.1))).map Prod.fst ∧
    (∃ tsv, lookupRow row "ts" = some tsv ∧
      lookupRow s.metadata "ts" = some (Value.vStr tsv.serialize)) := by
  obtain ⟨img, tv, tq, md0, tsv, hf, hd, htv, htq, hmd0, htsv, hs⟩ :=
    processRow_ok_some_inv h
  have hmd0eq : md0 = row.filter (fun kv =>
      !([ds.target, "geometry", "data_set"].contains kv.1)) := by
    rw [dropKeys] at hmd0
    split at hmd0
    · exact (Option.some.inj hmd0).symm
    · exact Option.noConfusion hmd0
  have hsm : s.metadata = setVal md0 "ts" (Value.vStr tsv.serialize) := by
    rw [hs]
  have hst : s.target = tq := by
    rw [hs]
  refine ⟨⟨tv, tq, htv, htq, hst⟩, ?_, ?_⟩
  · rw [hsm, keys_setVal_of_lookup md0 "ts" _ tsv htsv, hmd0eq]
  · refine ⟨tsv, ?_, ?_⟩
    · rw [hmd0eq] at htsv
      have hmem := lookupRow_mem htsv
      have hkeep := (List.mem_filter.1 hmem).2
      have hpred : ∀ v : Value,
          (!([ds.target, "geometry", "data_set"].contains
            (("ts", v) : String × Value).1)) = true := fun _ => hkeep
      rw [lookupRow_filter row "ts" _ hpred] at htsv
      exact htsv
    · rw [hsm]
      exact lookupRow_setVal_self md0 "ts" (Value.vStr tsv.serialize)

/-- Claim C7: when a transform is configured, every yielded sample's image
is the transform's output with `.squeeze(0)` applied, so a singleton
leading dimension introduced by the transform is dropped (a transform
output of shape `1 :: sh` is yielded with shape `sh`); when no transform
is configured, the fetched image is yielded unchanged. -/
theorem C7_transform_squeeze (gi : Value → Value → Nat → Except Unit RawImage)
    (da : Image → Rat → Bool) (ds : CoalEmissionsDataset) (row : Row)
    (s : Sample) (img : Image)
    (hfetch : fetchRowImage gi ds row = .ok img)
    (h : processRow gi da ds row = .ok (some s)) :
    (∀ t, ds.transforms = some t → s.image = (t img).squeeze0) ∧
    (∀ t sh, ds.transforms = some t → (t img).shape = 1 :: sh →
      s.image.shape = sh) ∧
    (ds.transforms = none → s.image = img) := by
  obtain ⟨img2, tv, tq, md0, tsv, hf, hd, htv, htq, hmd0, htsv, hs⟩ :=
    processRow_ok_some_inv h
  rw [hfetch] at hf
  have himg : img2 = img := (Except.ok.inj hf).symm
  rw [himg] at hs
  have hsi : s.image = applyTransforms ds.transforms img := by
    rw [hs]
  refine ⟨?_, ?_, ?_⟩
  · intro t ht
    rw [hsi, ht]
    rfl
  · intro t sh ht hsh
    rw [hsi, ht]
    exact squeeze0_shape_singleton _ sh hsh
  · intro ht
    rw [hsi, ht]
    rfl

/-- Claim C9 (implicit): `__init__` validates only that the fixed required
column set is contained in the table's columns and never checks the
configured target: for any table containing the required columns,
construction succeeds for an arbitrary target string, and when that target
is absent from a row, iteration fails with a `KeyError` on the target at
the first row that passes the darkness check. -/
theorem C9_target_not_validated (gdf : GeoDataFrame) (image_size : Nat)
    (max_dark_frac : Rat) (transforms : Option (Image → Image))
    (hcols : ∀ c ∈ FINAL_COLUMNS, c ∈ gdf.columns) :
    (∀ target,
      CoalEmissionsDataset.init gdf target image_size max_dark_frac transforms
        = some ⟨gdf, target, image_size, max_dark_frac, transforms⟩) ∧
    (∀ target gi da ds row img,
      CoalEmissionsDataset.init gdf target image_size max_dark_frac transforms
        = some ds →
      fetchRowImage gi ds row = .ok img →
      da img ds.max_dark_frac = false →
      lookupRow row target = none →
      processRow gi da ds row = .error (IterError.keyError target)) := by
  have hinit : ∀ target,
      CoalEmissionsDataset.init gdf target image_size max_dark_frac transforms
        = some ⟨gdf, target, image_size, max_dark_frac, transforms⟩ := by
    intro target
    rw [CoalEmissionsDataset.init, if_pos]
    rw [List.all_eq_true]
    intro c hc
    rw [List.contains, List.elem_iff]
    exact hcols c hc
  refine ⟨hinit, ?_⟩
  intro target gi da ds row img hds hf hd hlk
  have hdseq : ds = ⟨gdf, target, image_size, max_dark_frac, transforms⟩ := by
    rw [hinit target] at hds
    exact (Option.some.inj hds).symm
  subst hdseq
  simp only [processRow, hf, hd, Bool.false_eq_true, if_false, hlk]

/-- Claim C3: under the row-level split resolution applied by
`CoalEmissionsDataModule.setup` (via `split_data_in_sets`), every row of
the table whose year is at least the configured `test_year` is labelled
"test" regardless of the facility train/val mapping, and every other row
is labelled with the facility mapping's value. -/
theorem C3_year_override (yearOf : Row → Int) (facLabel : Row → String)
    (test_year : Int) (gdf : GeoDataFrame) (row : Row)
    (hrow : row ∈ gdf.rows) :
    labelRow yearOf facLabel test_year row ∈
      (labelDataSet yearOf facLabel test_year gdf).rows ∧
    (test_year ≤ yearOf row →
      lookupRow (labelRow yearOf facLabel test_year row) "data_set" =
        some (Value.vStr "test")) ∧
    (yearOf row < test_year →
      lookupRow (labelRow yearOf facLabel test_year row) "data_set" =
        some (Value.vStr (facLabel row))) := by
  refine ⟨?_, ?_, ?_⟩
  · show _ ∈ gdf.rows.map (labelRow yearOf facLabel test_year)
    exact List.mem_map_of_mem _ hrow
  · intro hy
    rw [labelRow, lookupRow_setVal_self, split_data_in_sets, if_pos hy]
  · intro hy
    rw [labelRow, lookupRow_setVal_self, split_data_in_sets,
      if_neg (by omega)]

/-- Claim C10 (implicit): calling `CoalEmissionsDataModule.setup` with a
stage other than "fit" or "test" completes without raising and without
constructing any dataset, while the join and the split labelling are
still performed: the result is the labelled joined table together with no
train, no validation and no test dataset. -/
theorem C10_other_stage (dm : CoalEmissionsDataModule)
    (get_final_dataset : GeoDataFrame) (yearOf : Row → Int)
    (facLabel : Row → String) (shuffle : List Row → List Row)
    (train_transforms val_transforms test_transforms : Image → Image)
    (stage : String) (h1 : stage ≠ "fit") (h2 : stage ≠ "test") :
    CoalEmissionsDataModule.setup dm get_final_dataset yearOf facLabel
      shuffle train_transforms val_transforms test_transforms stage =
      some (labelDataSet yearOf facLabel dm.test_year get_final_dataset,
        ⟨none, none, none⟩) := by
  simp only [CoalEmissionsDataModule.setup, if_neg h1, if_neg h2]

/-- A concrete row used by the witnesses: every required column plus the
"data_set" split label. -/
def egRow : Row :=
  [("facility_id", Value.vNum 1), ("facility_name", Value.vStr "A"),
   ("latitude", Value.vNum 10), ("longitude", Value.vNum 20),
   ("ts", Value.vTs "2020-01-01 00:00:00"),
   ("co2_mass_short_tons", Value.vNum 5), ("cloud_cover", Value.vNum 0),
   ("cog_url", Value.vStr "http://cog/a"), ("geometry", Value.vGeom 0),
   ("data_set", Value.vStr "train")]

/-- A second concrete row whose image URL makes the witness fetch fail. -/
def egRowBad : Row :=
  [("facility_id", Value.vNum 2), ("facility_name", Value.vStr "B"),
   ("latitude", Value.vNum 11), ("longitude", Value.vNum 21),
   ("ts", Value.vTs "2020-01-02 00:00:00"),
   ("co2_mass_short_tons", Value.vNum 6), ("cloud_cover", Value.vNum 0),
   ("cog_url", Value.vStr "bad"), ("geometry", Value.vGeom 1),
   ("data_set", Value.vStr "train")]

def egColumns : List String := FINAL_COLUMNS ++ ["data_set"]

def egGdf : GeoDataFrame := ⟨egColumns, [egRow]⟩

def egGdf2 : GeoDataFrame := ⟨egColumns, [egRow, egRowBad]⟩

def egGdfMissing : GeoDataFrame := ⟨["facility_id"], []⟩

def egRaw : RawImage := ⟨[3, 1, 1], [7, 8, 9]⟩

def egImg : Image := toFloatTensor egRaw

/-- A concrete image-fetch collaborator: fails on the URL "bad". -/
def egFetch : Value → Value → Nat → Except Unit RawImage :=
  fun url _ _ => if url = Value.vStr "bad" then .error () else .ok egRaw

def egDarkNever : Image → Rat → Bool := fun _ _ => false

def egDarkAlways : Image → Rat → Bool := fun _ _ => true

def egDs : CoalEmissionsDataset :=
  ⟨egGdf, "co2_mass_short_tons", 32, 1 / 2, none⟩

def egDs2 : CoalEmissionsDataset :=
  ⟨egGdf2, "co2_mass_short_tons", 32, 1 / 2, none⟩

/-- A concrete transform that prepends a singleton leading dimension. -/
def egT : Image → Image := fun img => ⟨1 :: img.shape, img.data⟩

def egDsT : CoalEmissionsDataset :=
  ⟨egGdf, "co2_mass_short_tons", 32, 1 / 2, some egT⟩

def egDsM : CoalEmissionsDataset := ⟨egGdf, "nope", 32, 1 / 2, none⟩

def egSample : Sample :=
  (((processRow egFetch egDarkNever egDs egRow).toOption).bind id).getD
    ⟨⟨[], []⟩, 0, []⟩

def egSampleT : Sample :=
  (((processRow egFetch egDarkNever egDsT egRow).toOption).bind id).getD
    ⟨⟨[], []⟩, 0, []⟩

def egYearOf : Row → Int := fun _ => 2021

def egFacLabel : Row → String := fun _ => "train"

def egDm : CoalEmissionsDataModule := ⟨"co2_mass_short_tons", 32, 2020, 4, 0⟩

/-- Witness for C2: on a row whose image the darkness check rejects, the
loop body yields nothing. -/
theorem C2_dark_rows_skipped_witness :
    processRow egFetch egDarkAlways egDs egRow = .ok none :=
  (C2_dark_rows_skipped egFetch egDarkAlways egDs egRow egImg (by rfl)
    (by rfl)).1

/-- Witness for C3: a concrete row with year 2021 and cutoff 2020 is
labelled "test" even though its facility maps to "train". -/
theorem C3_year_override_witness :
    lookupRow (labelRow egYearOf egFacLabel 2020 egRow) "data_set" =
      some (Value.vStr "test") :=
  (C3_year_override egYearOf egFacLabel 2020 egGdf egRow
    (by decide)).2.1 (by decide)

/-- Witness for C4: a table with only a "facility_id" column (missing
"geometry" among others) is rejected at construction. -/
theorem C4_construction_validation_witness :
    CoalEmissionsDataset.init egGdfMissing "co2_mass_short_tons" 32
      (1 / 2 : Rat) none = none :=
  (C4_construction_validation egGdfMissing "co2_mass_short_tons" 32
    (1 / 2 : Rat) none).2.1 ⟨"geometry", by decide, by decide⟩

/-- Witness for C5: a concrete error-free single-worker pass yields at
most `len` samples. -/
theorem C5_length_contract_witness :
    (runWorker egFetch egDarkNever egDs 0 1).1.length ≤
      CoalEmissionsDataset.len egDs :=
  (C5_length_contract egFetch egDarkNever egDs (by decide)).2.1

/-- Witness for C6: the concrete yielded sample's metadata keys are the
row's fields minus the target, the geometry and the split label. -/
theorem C6_sample_contents_witness :
    egSample.metadata.map Prod.fst =
      (egRow.filter (fun kv =>
        !([egDs.target, "geometry", "data_set"].contains kv.1))).map
        Prod.fst :=
  (C6_sample_contents egFetch egDarkNever egDs egRow egSample (by rfl)).2.1

/-- Witness for C7: a transform that prepends a singleton dimension to the
3x1x1 test image has it squeezed away in the yielded sample. -/
theorem C7_transform_squeeze_witness : egSampleT.image.shape = [3, 1, 1] :=
  (C7_transform_squeeze egFetch egDarkNever egDsT egRow egSampleT egImg
    (by rfl) (by rfl)).2.1 egT [3, 1, 1] rfl (by decide)

/-- Witness for C8: in a two-row table whose second row's fetch fails, a
single worker's pass returns the first row's sample and the fetch error. -/
theorem C8_fetch_failure_aborts_witness :
    runWorker egFetch egDarkNever egDs2 0 1 =
      ((runRows egFetch egDarkNever egDs2 [egRow]).1,
        some IterError.fetchError) :=
  C8_fetch_failure_aborts egFetch egDarkNever egDs2 0 1 [egRow] egRowBad []
    (by decide) (by decide) (by rfl)

/-- Witness for C9: a dataset constructed with the absent target "nope"
fails at the first non-dark row with a key error on "nope". -/
theorem C9_target_not_validated_witness :
    processRow egFetch egDarkNever egDsM egRow =
      .error (IterError.keyError "nope") :=
  (C9_target_not_validated egGdf 32 (1 / 2 : Rat) none (by decide)).2
    "nope" egFetch egDarkNever egDsM egRow egImg (by rfl) (by rfl) (by rfl)
    (by decide)

/-- Witness for C10: `setup` at the stage "predict" returns the labelled
table and no datasets. -/
theorem C10_other_stage_witness :
    CoalEmissionsDataModule.setup egDm egGdf egYearOf egFacLabel id id id id
      "predict" =
      some (labelDataSet egYearOf egFacLabel egDm.test_year egGdf,
        ⟨none, none, none⟩) :=
  C10_other_stage egDm egGdf egYearOf egFacLabel id id id id "predict"
    (by decide) (by decide)
